import Mathlib

/-
Verification of the document mail-merge HTTP handler (src/app.py).

The handler `document_merge` (src/app.py lines 20-110) parses a JSON body,
validates its shape, base64-decodes the `template` field, delegates to the
external docx-mailmerge library (field enumeration and merge), and returns a
JSON response.  We embed the handler shallowly: parsed JSON request bodies are
an inductive `Json`; Python semantics that the handler relies on (truthiness,
the `in` operator, subscripting, `base64.b64decode` / `b64encode`) are
modelled from the CPython behaviour the code invokes; the external merge
library, which is not part of this repository, is an abstract capability
record `MergeCap` per the spec's capability interface.  Exceptions are
modelled with `Except String`: the handler's outer `except Exception` clause
becomes a total function from the inner computation's result to a response.
-/

namespace WordMailMerge

/-- Parsed JSON value, as produced by `request.get_json()` (a Python object:
None, bool, int, str, list or dict).  Numbers are modelled as integers, which
covers every numeric input the claims mention; a dict is an association list
(JSON parsing already collapses duplicate keys). -/
inductive Json where
  | null : Json
  | bool : Bool → Json
  | num : Int → Json
  | str : String → Json
  | arr : List Json → Json
  | obj : List (String × Json) → Json

/-- A single ASCII apostrophe, used to build the handler's error messages. -/
def sq : String := String.mk [Char.ofNat 39]

/-- Python truthiness of a parsed JSON value, used by line 46
(`if not request_data or ...`). -/
def truthy : Json → Bool
  | Json.null => false
  | Json.bool b => b
  | Json.num n => n != 0
  | Json.str s => s != ""
  | Json.arr xs => !xs.isEmpty
  | Json.obj kvs => !kvs.isEmpty

/-- First-match lookup in a dict's association list (Python dict indexing on
a parse-deduplicated dict). -/
def lookupKey : List (String × Json) → String → Option Json
  | [], _ => none
  | (k, v) :: rest, key => if k = key then some v else lookupKey rest key

/-- Python equality of a JSON value with a string literal (`key == x`): true
exactly when the value is that string. -/
def eqStrLit : Json → String → Bool
  | Json.str t, s => t == s
  | _, _ => false

/-- Substring test, modelling Python `pat in s` for strings. -/
def strContainsSub (s pat : String) : Bool := (s.splitOn pat).length ≥ 2

/-- Python membership test `key in j` for a string key, as used on line 46.
On a dict it tests keys; on a list, element equality; on a string, substring;
on int/bool/None it raises TypeError (modelled as `Except.error`). -/
def pyContains (j : Json) (key : String) : Except String Bool :=
  match j with
  | Json.obj kvs => Except.ok (lookupKey kvs key).isSome
  | Json.arr xs => Except.ok (xs.any (fun x => eqStrLit x key))
  | Json.str s => Except.ok (strContainsSub s key)
  | Json.num _ => Except.error ("argument of type " ++ sq ++ "int" ++ sq ++ " is not iterable")
  | Json.bool _ => Except.error ("argument of type " ++ sq ++ "bool" ++ sq ++ " is not iterable")
  | Json.null => Except.error ("argument of type " ++ sq ++ "NoneType" ++ sq ++ " is not iterable")

/-- Python subscripting `j[key]` with a string key, as used on lines 52-53.
On a dict it looks the key up (KeyError if absent); on list/str/other values
it raises TypeError. -/
def pySubscript (j : Json) (key : String) : Except String Json :=
  match j with
  | Json.obj kvs =>
    match lookupKey kvs key with
    | some v => Except.ok v
    | none => Except.error ("KeyError: " ++ sq ++ key ++ sq)
  | Json.arr _ => Except.error "TypeError: list indices must be integers or slices, not str"
  | Json.str _ => Except.error "TypeError: string indices must be integers"
  | _ => Except.error "TypeError: value is not subscriptable"

/-- The condition guarded on line 46, with Python short-circuiting:
`not (not rd or "template" not in rd or "data" not in rd)`.  Returns
`Except.ok true` when both keys are present (per Python `in`), `Except.ok
false` when the body is falsy or a key is absent, and an error when `in`
raises TypeError on a non-container truthy body. -/
def paramsPresent (rd : Json) : Except String Bool :=
  if truthy rd = false then Except.ok false
  else
    match pyContains rd "template" with
    | Except.error e => Except.error e
    | Except.ok false => Except.ok false
    | Except.ok true => pyContains rd "data"

/-- isinstance(v, str) on a parsed JSON value. -/
def isStr : Json → Bool
  | Json.str _ => true
  | _ => false

/-- isinstance(v, dict) on a parsed JSON value (line 56). -/
def isObj : Json → Bool
  | Json.obj _ => true
  | _ => false

/-- All values of the data dict are strings (the loop on lines 63-68 finds no
offender). -/
def allStrings (kvs : List (String × Json)) : Bool :=
  kvs.all (fun p => isStr p.2)

/-- The first (key, value) pair of the data dict whose value is not a string,
in insertion order — the pair at which the loop on lines 63-68 returns. -/
def firstNonString (kvs : List (String × Json)) : Option (String × Json) :=
  kvs.find? (fun p => !isStr p.2)

/-- The string content of a JSON string value (meaningful once `allStrings`
holds). -/
def strVal : Json → String
  | Json.str s => s
  | _ => ""

/-- The keyword arguments passed to the library merge call
(`document.merge(**data)`, line 87): the data dict as string pairs. -/
def strPairs (kvs : List (String × Json)) : List (String × String) :=
  kvs.map (fun p => (p.1, strVal p.2))

/-- The standard base64 alphabet in index order, as in CPython's
`table_a2b_base64` / `table_b2a_base64`. -/
def b64table : List Char :=
  "ABCDEFGHIJKLMNOPQRSTUVWXYZabcdefghijklmnopqrstuvwxyz0123456789+/".toList

/-- The 6-bit value of a base64 alphabet character, `none` for every other
character. -/
def alphaVal (c : Char) : Option Nat :=
  List.findIdx? (fun d => d = c) b64table

/-- The base64 character for a 6-bit value. -/
def enc6 (n : Nat) : Char := b64table.getD n (Char.ofNat 65)

/-- The character stream emitted by `base64.b64encode` (RFC 4045 base64 with
padding), 3 input bytes per 4 output characters.  Arithmetic stands for the
bit operations: division by 4/16/64 is shifting right, `% 4`/`% 16`/`% 64` is
masking. -/
def encChars : List Nat → List Char
  | [] => []
  | [b0] => [enc6 (b0 / 4), enc6 (b0 % 4 * 16), Char.ofNat 61, Char.ofNat 61]
  | [b0, b1] => [enc6 (b0 / 4), enc6 (b0 % 4 * 16 + b1 / 16), enc6 (b1 % 16 * 4), Char.ofNat 61]
  | b0 :: b1 :: b2 :: rest =>
    enc6 (b0 / 4) :: enc6 (b0 % 4 * 16 + b1 / 16) :: enc6 (b1 % 16 * 4 + b2 / 64)
      :: enc6 (b2 % 64) :: encChars rest

/-- `base64.b64encode(bytes).decode("utf-8")` (line 96): bytes to base64
text. -/
def b64encode (bs : List Nat) : String := String.mk (encChars bs)

/-- CPython's `binascii.a2b_base64` in its default non-strict mode, which is
what `base64.b64decode(s)` (line 72, no `validate=True`) calls: characters
outside the alphabet are skipped; a pad character is counted only when at
least two data characters of the current quad have been seen, and decoding
ends successfully once padding completes the quad; at end of input a quad
position of 1 or an incomplete quad is an error.  State: remaining
characters, quad position (0-3), leftover bits, pad count, emitted bytes in
reverse. -/
def a2b : List Char → Nat → Nat → Nat → List Nat → Except String (List Nat)
  | [], q, _, _, acc =>
    if q = 0 then Except.ok acc.reverse
    else if q = 1 then
      Except.error "Invalid base64-encoded string: number of data characters cannot be 1 more than a multiple of 4"
    else Except.error "Incorrect padding"
  | c :: cs, q, lc, pads, acc =>
    if c = Char.ofNat 61 then
      if 2 ≤ q then
        if 4 ≤ q + (pads + 1) then Except.ok acc.reverse
        else a2b cs q lc (pads + 1) acc
      else a2b cs q lc pads acc
    else
      match alphaVal c with
      | none => a2b cs q lc pads acc
      | some v =>
        if q = 0 then a2b cs 1 v 0 acc
        else if q = 1 then a2b cs 2 (v % 16) 0 ((lc * 4 + v / 16) :: acc)
        else if q = 2 then a2b cs 3 (v % 4) 0 ((lc * 16 + v / 4) :: acc)
        else a2b cs 0 0 0 ((lc * 64 + v) :: acc)

/-- `base64.b64decode` applied to a Python str: implicit ASCII encoding
(ValueError on a non-ASCII character), then non-strict `a2b_base64`. -/
def b64decodeStr (s : String) : Except String (List Nat) :=
  if s.toList.all (fun c => c.toNat ≤ 127) then a2b s.toList 0 0 0 []
  else Except.error "string argument should contain only ASCII characters"

/-- `base64.b64decode(template_base64)` (line 72) on the raw JSON value of
`template`: a TypeError on every non-string value, otherwise string
decoding.  Every failure is caught on line 73 and mapped to the same 400
response. -/
def b64decodePy : Json → Except String (List Nat)
  | Json.str s => b64decodeStr s
  | _ => Except.error "argument should be a bytes-like object or ASCII string"

/-- The observable part of an HTTP response produced by the handler: status
code and the JSON body's fields (absent keys are `none`). -/
structure Response where
  status : Nat
  success : Bool
  document : Option String
  fields : Option (List String)
  error : Option String
deriving DecidableEq

/-- A 400 response `{success: false, error: msg}` (lines 47-50, 57-60, 65-68,
74-77). -/
def clientError (msg : String) : Response :=
  { status := 400, success := false, document := none, fields := none, error := some msg }

/-- A 500 response `{success: false, error: str(e)}` from the outer exception
handler (lines 105-110). -/
def serverError (msg : String) : Response :=
  { status := 500, success := false, document := none, fields := none, error := some msg }

/-- The 200 response of lines 99-103. -/
def successResponse (fs : List String) (out : List Nat) : Response :=
  { status := 200, success := true, document := some (b64encode out),
    fields := some fs, error := none }

/-- Modelled from the spec: the external merge capability (section 4.3), the
docx-mailmerge library, which is not part of this repository.
`get_merge_fields` covers `MailMerge(template_file)` plus
`document.get_merge_fields()` (lines 81-84) on the decoded template bytes;
`merge_write` covers `document.merge(**data)` plus `document.write(buffer)`
(lines 87-95), yielding the output bytes.  Either operation may raise, which
the spec allows for malformed documents; an error propagates to the
handler's outer exception clause. -/
structure MergeCap where
  get_merge_fields : List Nat → Except String (List String)
  merge_write : List Nat → List (String × String) → Except String (List Nat)

/-- A well-behaved capability produces genuine bytes (values below 256), as
any Python bytes object does. -/
def CapBytes (cap : MergeCap) : Prop :=
  ∀ tb pairs out, cap.merge_write tb pairs = Except.ok out → ∀ b ∈ out, b < 256

/-- Lines 79-103: enumerate the merge fields of the decoded template, then
merge and serialise, in that order; a failure of either library call
propagates (to the outer exception clause). -/
def mergeStage (cap : MergeCap) (tb : List Nat) (pairs : List (String × String)) : Response :=
  match cap.get_merge_fields tb with
  | Except.error e => serverError e
  | Except.ok fs =>
    match cap.merge_write tb pairs with
    | Except.error e => serverError e
    | Except.ok out => successResponse fs out

/-- Lines 63-77 applied to a data dict: reject the first non-string value
with a 400 naming its key; then decode the template from base64, mapping any
decoding failure to the fixed 400 message; then run the merge stage. -/
def decodeStage (cap : MergeCap) (template_base64 : Json) (kvs : List (String × Json)) : Response :=
  match firstNonString kvs with
  | some p => clientError ("Data value for key " ++ sq ++ p.1 ++ sq ++ " must be a string")
  | none =>
    match b64decodePy template_base64 with
    | Except.error _ => clientError "Invalid base64 encoded template"
    | Except.ok tb => mergeStage cap tb (strPairs kvs)

/-- Lines 56-60 applied to the extracted `template` and `data` values:
reject a non-dict `data` with a 400, else continue. -/
def dataStage (cap : MergeCap) (template_base64 : Json) (data : Json) : Response :=
  match data with
  | Json.obj kvs => decodeStage cap template_base64 kvs
  | _ => clientError "Data must be an object"

/-- Lines 46-103 applied to a parsed request body: the presence check of
line 46, then extraction of `template` and `data` by subscripting; an
exception from `in` or subscripting on an ill-typed body propagates to the
outer exception clause. -/
def withBody (cap : MergeCap) (request_data : Json) : Response :=
  match paramsPresent request_data with
  | Except.error e => serverError e
  | Except.ok false => clientError "Missing required parameters: template and data"
  | Except.ok true =>
    match pySubscript request_data "template" with
    | Except.error e => serverError e
    | Except.ok template_base64 =>
      match pySubscript request_data "data" with
      | Except.error e => serverError e
      | Except.ok data => dataStage cap template_base64 data

/-- The whole handler (lines 41-110).  Its input is the outcome of
`request.get_json()`: `Except.error e` models a body-parsing exception
(invalid JSON, wrong content type), which — like every exception escaping
the inner code — is caught by the outer `except Exception` clause and turned
into a 500 response carrying the exception's message. -/
def document_merge (cap : MergeCap) : Except String Json → Response
  | Except.error e => serverError e
  | Except.ok request_data => withBody cap request_data

/-- Modelled from the spec: a minimal instance of the merge capability that
fails on malformed (here: empty) document bytes, as section 4.3 contemplates
(the real library raises BadZipFile on bytes that are not a zip archive),
and otherwise reports no fields and returns the bytes unchanged. -/
def specCap : MergeCap :=
  { get_merge_fields := fun bs =>
      if bs.isEmpty then Except.error "File is not a zip file" else Except.ok []
    merge_write := fun bs _ =>
      if bs.isEmpty then Except.error "File is not a zip file" else Except.ok bs }

/-- Modelled from the spec: a merge capability instance on which both
operations always succeed, listing one field and producing a fixed non-empty
byte output, used to exercise the handler's success path. -/
def okCap : MergeCap :=
  { get_merge_fields := fun _ => Except.ok ["client_name"]
    merge_write := fun _ _ => Except.ok [80, 75, 3, 4] }

/-- A well-formed request body used to exercise the success path: an empty
template string (valid base64 for zero bytes) and a one-field string data
dict. -/
def goodBody : Json :=
  Json.obj [("template", Json.str ""), ("data", Json.obj [("client_name", Json.str "Acme")])]

/-- Every base64 character's 6-bit value decodes back, is not the pad
character, and is ASCII. -/
theorem alphaVal_enc6_fin :
    ∀ v : Fin 64, alphaVal (enc6 v.val) = some v.val ∧ enc6 v.val ≠ Char.ofNat 61
      ∧ (enc6 v.val).toNat ≤ 127 := by decide

theorem alphaVal_enc6 (v : Nat) (h : v < 64) : alphaVal (enc6 v) = some v :=
  (alphaVal_enc6_fin ⟨v, h⟩).1

theorem enc6_ne_pad (v : Nat) (h : v < 64) : enc6 v ≠ Char.ofNat 61 :=
  (alphaVal_enc6_fin ⟨v, h⟩).2.1

theorem enc6_ascii (v : Nat) (h : v < 64) : (enc6 v).toNat ≤ 127 :=
  (alphaVal_enc6_fin ⟨v, h⟩).2.2

/-- One decoding step of `a2b` on an alphabet character. -/
theorem a2b_cons_enc (v : Nat) (hv : v < 64) (cs : List Char) (q lc pads : Nat) (acc : List Nat) :
    a2b (enc6 v :: cs) q lc pads acc =
      if q = 0 then a2b cs 1 v 0 acc
      else if q = 1 then a2b cs 2 (v % 16) 0 ((lc * 4 + v / 16) :: acc)
      else if q = 2 then a2b cs 3 (v % 4) 0 ((lc * 16 + v / 4) :: acc)
      else a2b cs 0 0 0 ((lc * 64 + v) :: acc) := by
  rw [a2b, if_neg (enc6_ne_pad v hv), alphaVal_enc6 v hv]

/-- Decoding the encoder's character stream recovers the bytes. -/
theorem a2b_encChars : ∀ (bs : List Nat), (∀ b ∈ bs, b < 256) →
    ∀ acc : List Nat, a2b (encChars bs) 0 0 0 acc = Except.ok (acc.reverse ++ bs) := by
  intro bs
  induction bs using encChars.induct with
  | case1 =>
    intro _ acc
    simp [encChars, a2b]
  | case2 b0 =>
    intro h acc
    have hb0 : b0 < 256 := h b0 (by simp)
    rw [encChars, a2b_cons_enc (b0 / 4) (by omega), if_pos rfl,
        a2b_cons_enc (b0 % 4 * 16) (by omega), if_neg (by decide), if_pos rfl]
    have e1 : b0 % 4 * 16 % 16 = 0 := by omega
    have e2 : b0 / 4 * 4 + b0 % 4 * 16 / 16 = b0 := by omega
    rw [e1, e2]
    simp [a2b]
  | case3 b0 b1 =>
    intro h acc
    have hb0 : b0 < 256 := h b0 (by simp)
    have hb1 : b1 < 256 := h b1 (by simp)
    rw [encChars, a2b_cons_enc (b0 / 4) (by omega), if_pos rfl,
        a2b_cons_enc (b0 % 4 * 16 + b1 / 16) (by omega), if_neg (by decide), if_pos rfl]
    have e1 : (b0 % 4 * 16 + b1 / 16) % 16 = b1 / 16 := by omega
    have e2 : b0 / 4 * 4 + (b0 % 4 * 16 + b1 / 16) / 16 = b0 := by omega
    rw [e1, e2, a2b_cons_enc (b1 % 16 * 4) (by omega), if_neg (by decide), if_neg (by decide),
        if_pos rfl]
    have e3 : b1 % 16 * 4 % 4 = 0 := by omega
    have e4 : b1 / 16 * 16 + b1 % 16 * 4 / 4 = b1 := by omega
    rw [e3, e4]
    simp [a2b]
  | case4 b0 b1 b2 rest ih =>
    intro h acc
    have hb0 : b0 < 256 := h b0 (by simp)
    have hb1 : b1 < 256 := h b1 (by simp)
    have hb2 : b2 < 256 := h b2 (by simp)
    have hrest : ∀ b ∈ rest, b < 256 := fun b hb => h b (by simp [hb])
    rw [encChars, a2b_cons_enc (b0 / 4) (by omega), if_pos rfl,
        a2b_cons_enc (b0 % 4 * 16 + b1 / 16) (by omega), if_neg (by decide), if_pos rfl]
    have e1 : (b0 % 4 * 16 + b1 / 16) % 16 = b1 / 16 := by omega
    have e2 : b0 / 4 * 4 + (b0 % 4 * 16 + b1 / 16) / 16 = b0 := by omega
    rw [e1, e2, a2b_cons_enc (b1 % 16 * 4 + b2 / 64) (by omega), if_neg (by decide),
        if_neg (by decide), if_pos rfl]
    have e3 : (b1 % 16 * 4 + b2 / 64) % 4 = b2 / 64 := by omega
    have e4 : b1 / 16 * 16 + (b1 % 16 * 4 + b2 / 64) / 4 = b1 := by omega
    rw [e3, e4, a2b_cons_enc (b2 % 64) (by omega), if_neg (by decide), if_neg (by decide),
        if_neg (by decide)]
    have e5 : b2 / 64 * 64 + b2 % 64 = b2 := by omega
    rw [e5, ih hrest (b2 :: b1 :: b0 :: acc)]
    simp

/-- The encoder emits only ASCII characters. -/
theorem encChars_ascii : ∀ (bs : List Nat), (∀ b ∈ bs, b < 256) →
    ∀ c ∈ encChars bs, c.toNat ≤ 127 := by
  intro bs
  induction bs using encChars.induct with
  | case1 =>
    intro _ c hc
    simp [encChars] at hc
  | case2 b0 =>
    intro h c hc
    have hb0 : b0 < 256 := h b0 (by simp)
    simp only [encChars, List.mem_cons, List.not_mem_nil, or_false] at hc
    rcases hc with rfl | rfl | rfl | rfl
    · exact enc6_ascii _ (by omega)
    · exact enc6_ascii _ (by omega)
    · decide
    · decide
  | case3 b0 b1 =>
    intro h c hc
    have hb0 : b0 < 256 := h b0 (by simp)
    have hb1 : b1 < 256 := h b1 (by simp)
    simp only [encChars, List.mem_cons, List.not_mem_nil, or_false] at hc
    rcases hc with rfl | rfl | rfl | rfl
    · exact enc6_ascii _ (by omega)
    · exact enc6_ascii _ (by omega)
    · exact enc6_ascii _ (by omega)
    · decide
  | case4 b0 b1 b2 rest ih =>
    intro h c hc
    have hb0 : b0 < 256 := h b0 (by simp)
    have hb1 : b1 < 256 := h b1 (by simp)
    have hb2 : b2 < 256 := h b2 (by simp)
    have hrest : ∀ b ∈ rest, b < 256 := fun b hb => h b (by simp [hb])
    simp only [encChars, List.mem_cons] at hc
    rcases hc with rfl | rfl | rfl | rfl | hc
    · exact enc6_ascii _ (by omega)
    · exact enc6_ascii _ (by omega)
    · exact enc6_ascii _ (by omega)
    · exact enc6_ascii _ (by omega)
    · exact ih hrest c hc

/-- Decoding inverts encoding on genuine byte lists: the model of
`base64.b64decode(base64.b64encode(bs))` returns `bs`. -/
theorem b64decode_b64encode (bs : List Nat) (h : ∀ b ∈ bs, b < 256) :
    b64decodeStr (b64encode bs) = Except.ok bs := by
  have htl : (b64encode bs).toList = encChars bs := rfl
  unfold b64decodeStr
  rw [htl, if_pos, a2b_encChars bs h []]
  · simp
  · rw [List.all_eq_true]
    intro c hc
    exact decide_eq_true (encChars_ascii bs h c hc)

/-- A dict with a successful lookup is non-empty. -/
theorem lookupKey_isEmpty {l : List (String × Json)} {k : String} {v : Json}
    (h : lookupKey l k = some v) : l.isEmpty = false := by
  cases l with
  | nil => simp [lookupKey] at h
  | cons p rest => rfl

/-- On a dict body holding both keys, the presence check of line 46 passes. -/
theorem paramsPresent_obj {l : List (String × Json)} {t d : Json}
    (h1 : lookupKey l "template" = some t) (h2 : lookupKey l "data" = some d) :
    paramsPresent (Json.obj l) = Except.ok true := by
  unfold paramsPresent
  rw [if_neg]
  · simp only [pyContains, h1, h2, Option.isSome_some]
  · simp [truthy, lookupKey_isEmpty h1]

/-- On a dict body holding both keys, the handler reduces to the stages after
extraction of `template` and `data`. -/
theorem document_merge_obj (cap : MergeCap) {l : List (String × Json)} {t d : Json}
    (h1 : lookupKey l "template" = some t) (h2 : lookupKey l "data" = some d) :
    document_merge cap (Except.ok (Json.obj l)) = dataStage cap t d := by
  simp only [document_merge, withBody, paramsPresent_obj h1 h2, pySubscript, h1, h2]

/-- If all values of the data dict are strings, the loop of lines 63-68 finds
no offender. -/
theorem allStrings_firstNonString {kvs : List (String × Json)}
    (h : allStrings kvs = true) : firstNonString kvs = none := by
  unfold allStrings at h
  unfold firstNonString
  rw [List.find?_eq_none]
  intro p hp
  rw [List.all_eq_true] at h
  simp [h p hp]

/-- Inversion: a 200 response arises only on the full success path, with the
response determined by the extracted template and data. -/
theorem status200_inv {cap : MergeCap} {body : Json} {r : Response}
    (h : document_merge cap (Except.ok body) = r) (h200 : r.status = 200) :
    ∃ t kvs tb fs out,
      pySubscript body "template" = Except.ok t ∧
      pySubscript body "data" = Except.ok (Json.obj kvs) ∧
      firstNonString kvs = none ∧
      b64decodePy t = Except.ok tb ∧
      cap.get_merge_fields tb = Except.ok fs ∧
      cap.merge_write tb (strPairs kvs) = Except.ok out ∧
      r = successResponse fs out := by
  simp only [document_merge] at h
  unfold withBody dataStage decodeStage mergeStage at h
  repeat' split at h
  all_goals try (rw [← h] at h200; simp [clientError, serverError] at h200)
  all_goals subst h
  all_goals exact ⟨_, _, _, _, _, by assumption, by assumption, by assumption, by assumption,
    by assumption, by assumption, rfl⟩

/-- The success-path capability instance produces genuine bytes. -/
theorem okCap_bytes : CapBytes okCap := by
  intro tb pairs out h b hb
  simp only [okCap] at h
  cases h
  simp only [List.mem_cons, List.not_mem_nil, or_false] at hb
  rcases hb with rfl | rfl | rfl | rfl <;> decide

/-- Claim C1: whenever the handler answers 200, the response's `fields` is
exactly the list the merge capability enumerates (lines 83-84) from the bytes
obtained by base64-decoding the request's `template` value — a value computed
from the template alone, before the merge of line 87 runs (the embedding's
`mergeStage` queries `get_merge_fields` first, mirroring the source order).
Hence `fields` is independent of `data`: the second conjunct shows that any
two 200 responses for bodies with the same `template` value carry the same
`fields`, whatever their `data`. -/
theorem c1_fields_from_template (cap : MergeCap) (body : Json) (r : Response)
    (h : document_merge cap (Except.ok body) = r) (h200 : r.status = 200) :
    (∃ t tb fs, pySubscript body "template" = Except.ok t
      ∧ b64decodePy t = Except.ok tb
      ∧ cap.get_merge_fields tb = Except.ok fs
      ∧ r.fields = some fs)
    ∧ ∀ (body2 : Json) (r2 : Response), document_merge cap (Except.ok body2) = r2 →
        r2.status = 200 → pySubscript body2 "template" = pySubscript body "template" →
        r2.fields = r.fields := by
  obtain ⟨t, kvs, tb, fs, out, h1, h2, h3, h4, h5, h6, hr⟩ := status200_inv h h200
  refine ⟨⟨t, tb, fs, h1, h4, h5, by rw [hr]; rfl⟩, ?_⟩
  intro body2 r2 h' h200' hsub
  obtain ⟨t', kvs', tb', fs', out', h1', h2', h3', h4', h5', h6', hr'⟩ := status200_inv h' h200'
  rw [hsub, h1] at h1'
  cases h1'
  rw [h4] at h4'
  cases h4'
  rw [h5] at h5'
  cases h5'
  rw [hr, hr']
  rfl

/-- Witness for C1 at a concrete 200 request. -/
theorem c1_witness :
    (∃ t tb fs, pySubscript goodBody "template" = Except.ok t
      ∧ b64decodePy t = Except.ok tb
      ∧ okCap.get_merge_fields tb = Except.ok fs
      ∧ (document_merge okCap (Except.ok goodBody)).fields = some fs)
    ∧ ∀ (body2 : Json) (r2 : Response), document_merge okCap (Except.ok body2) = r2 →
        r2.status = 200 → pySubscript body2 "template" = pySubscript goodBody "template" →
        r2.fields = (document_merge okCap (Except.ok goodBody)).fields :=
  c1_fields_from_template okCap goodBody (document_merge okCap (Except.ok goodBody)) rfl rfl

/-- Claim C2 is false as stated: here is a valid request — its `template` is
a decodable base64 string (the empty string, decoding to zero bytes) and its
`data` is a mapping with only string values (it is empty) — on which the
handler responds 500 with success false, because the merge capability rejects
the decoded bytes (the real library raises BadZipFile on non-zip bytes, which
the spec's section 4.3 itself contemplates). -/
theorem c2_counterexample :
    b64decodePy (Json.str "") = Except.ok []
      ∧ allStrings [] = true
      ∧ (document_merge specCap
          (Except.ok (Json.obj [("template", Json.str ""), ("data", Json.obj [])]))).success = false
      ∧ (document_merge specCap
          (Except.ok (Json.obj [("template", Json.str ""), ("data", Json.obj [])]))).status = 500 :=
  ⟨rfl, rfl, rfl, rfl⟩

/-- Claim C2, amended: for every valid request (a mapping body whose
`template` decodes from base64 and whose `data` is a mapping of strings) on
which both merge-capability operations succeed and produce a non-empty byte
output, the response is 200 with success true and its `document` field
base64-decodes to that non-empty payload. -/
theorem c2_amended (cap : MergeCap) (l : List (String × Json)) (t : Json)
    (kvs : List (String × Json)) (tb out : List Nat) (fs : List String)
    (hT : lookupKey l "template" = some t)
    (hD : lookupKey l "data" = some (Json.obj kvs))
    (hstr : allStrings kvs = true)
    (hdec : b64decodePy t = Except.ok tb)
    (hlf : cap.get_merge_fields tb = Except.ok fs)
    (hmw : cap.merge_write tb (strPairs kvs) = Except.ok out)
    (hbytes : ∀ b ∈ out, b < 256)
    (hne : out ≠ []) :
    document_merge cap (Except.ok (Json.obj l)) = successResponse fs out
      ∧ (successResponse fs out).success = true
      ∧ (successResponse fs out).status = 200
      ∧ ∃ bs, (successResponse fs out).document = some (b64encode out)
          ∧ b64decodeStr (b64encode out) = Except.ok bs ∧ bs ≠ [] := by
  have hmain : document_merge cap (Except.ok (Json.obj l)) = successResponse fs out := by
    rw [document_merge_obj cap hT hD]
    unfold dataStage decodeStage mergeStage
    simp only [allStrings_firstNonString hstr, hdec, hlf, hmw]
  exact ⟨hmain, rfl, rfl, out, rfl, b64decode_b64encode out hbytes, hne⟩

/-- Witness for the amended C2 at a concrete request and capability. -/
theorem c2_witness :
    allStrings [("client_name", Json.str "Acme")] = true
      ∧ document_merge okCap (Except.ok goodBody) = successResponse ["client_name"] [80, 75, 3, 4]
      ∧ (successResponse ["client_name"] [80, 75, 3, 4]).success = true :=
  ⟨rfl,
    (c2_amended okCap [("template", Json.str ""), ("data", Json.obj [("client_name", Json.str "Acme")])]
      (Json.str "") [("client_name", Json.str "Acme")] [] [80, 75, 3, 4] ["client_name"]
      rfl rfl rfl rfl rfl rfl (by decide) (by decide)).1,
    rfl⟩

/-- Claim C3 is false as stated: the body `5` is a parsed request body with
no keys at all — in particular missing `template` and `data` — yet the
handler answers 500, not 400: the body is truthy and Python's membership
test raises TypeError on an int, which only the outer exception clause
catches. -/
theorem c3_counterexample :
    truthy (Json.num 5) = true
      ∧ (document_merge specCap (Except.ok (Json.num 5))).status = 500
      ∧ (document_merge specCap (Except.ok (Json.num 5))).success = false
      ∧ (document_merge specCap (Except.ok (Json.num 5))).status ≠ 400 :=
  ⟨rfl, rfl, rfl, by decide⟩

/-- Claim C3, amended: restricted to bodies on which line 46's check itself
answers (falsy bodies, and mapping/array/string bodies, i.e. those whose
membership test does not raise — a truthy number or boolean body yields 500
instead): if the presence check fails, or `data` extracts to a non-mapping,
or some `data` value is not a string, the handler returns the corresponding
400 client error with success false and a descriptive message.  The response
is the same for every capability `cap`, which is the embedding's rendering of
"the merge capability is never invoked". -/
theorem c3_amended (cap : MergeCap) (body : Json) :
    (paramsPresent body = Except.ok false →
      document_merge cap (Except.ok body)
        = clientError "Missing required parameters: template and data")
    ∧ (∀ t d, paramsPresent body = Except.ok true →
        pySubscript body "template" = Except.ok t →
        pySubscript body "data" = Except.ok d → isObj d = false →
        document_merge cap (Except.ok body) = clientError "Data must be an object")
    ∧ (∀ t kvs p, paramsPresent body = Except.ok true →
        pySubscript body "template" = Except.ok t →
        pySubscript body "data" = Except.ok (Json.obj kvs) →
        firstNonString kvs = some p →
        document_merge cap (Except.ok body)
          = clientError ("Data value for key " ++ sq ++ p.1 ++ sq ++ " must be a string")) := by
  refine ⟨?_, ?_, ?_⟩
  · intro hpp
    simp only [document_merge, withBody, hpp]
  · intro t d hpp ht hd hobj
    simp only [document_merge, withBody, hpp, ht, hd, dataStage]
    cases d with
    | obj kvs => simp [isObj] at hobj
    | null => rfl
    | bool b => rfl
    | num n => rfl
    | str s => rfl
    | arr xs => rfl
  · intro t kvs p hpp ht hd hp
    simp only [document_merge, withBody, hpp, ht, hd, dataStage, decodeStage, hp]

/-- Witness for the amended C3: a mapping body missing both keys gets the
400 missing-parameters response. -/
theorem c3_witness :
    document_merge specCap (Except.ok (Json.obj [("foo", Json.null)]))
      = clientError "Missing required parameters: template and data" :=
  (c3_amended specCap (Json.obj [("foo", Json.null)])).1 rfl

/-- Claim C4: when `template` and `data` are present and some `data` value is
not a string (number, boolean, null, object — `isStr p.2 = false`), the
response is the 400 client error whose message names the first offending key
(the message decomposes as `pre ++ key ++ post`), with success false. -/
theorem c4_nonstring_data_value (cap : MergeCap) (l : List (String × Json)) (t : Json)
    (kvs : List (String × Json)) (p : String × Json)
    (hT : lookupKey l "template" = some t)
    (hD : lookupKey l "data" = some (Json.obj kvs))
    (hp : firstNonString kvs = some p) :
    document_merge cap (Except.ok (Json.obj l))
      = clientError ("Data value for key " ++ sq ++ p.1 ++ sq ++ " must be a string")
    ∧ (clientError ("Data value for key " ++ sq ++ p.1 ++ sq ++ " must be a string")).status = 400
    ∧ (clientError ("Data value for key " ++ sq ++ p.1 ++ sq ++ " must be a string")).success = false
    ∧ isStr p.2 = false
    ∧ ∃ pre post,
        ("Data value for key " ++ sq ++ p.1 ++ sq ++ " must be a string") = pre ++ p.1 ++ post := by
  have hmain : document_merge cap (Except.ok (Json.obj l))
      = clientError ("Data value for key " ++ sq ++ p.1 ++ sq ++ " must be a string") := by
    rw [document_merge_obj cap hT hD]
    unfold dataStage decodeStage
    simp only [hp]
  have hns : isStr p.2 = false := by
    have := List.find?_some hp
    simpa using this
  refine ⟨hmain, rfl, rfl, hns, "Data value for key " ++ sq, sq ++ " must be a string", ?_⟩
  simp [String.append_assoc]

/-- Witness for C4 at the spec's concrete scenario `data = ("amount": 42)`. -/
theorem c4_witness :
    document_merge okCap
        (Except.ok (Json.obj [("template", Json.str ""), ("data", Json.obj [("amount", Json.num 42)])]))
      = clientError ("Data value for key " ++ sq ++ "amount" ++ sq ++ " must be a string") :=
  (c4_nonstring_data_value okCap [("template", Json.str ""), ("data", Json.obj [("amount", Json.num 42)])]
    (Json.str "") [("amount", Json.num 42)] ("amount", Json.num 42) rfl rfl rfl).1

/-- Claim C5: a request whose `template` fails base64 decoding (after the
data values pass the string check, which the code runs first) gets the 400
response with the message "Invalid base64 encoded template".  The response is
the same for every capability `cap` — the merge capability is not invoked. -/
theorem c5_invalid_base64 (cap : MergeCap) (l : List (String × Json)) (t : Json)
    (kvs : List (String × Json)) (e : String)
    (hT : lookupKey l "template" = some t)
    (hD : lookupKey l "data" = some (Json.obj kvs))
    (hstr : allStrings kvs = true)
    (hdec : b64decodePy t = Except.error e) :
    document_merge cap (Except.ok (Json.obj l)) = clientError "Invalid base64 encoded template"
    ∧ (clientError "Invalid base64 encoded template").status = 400 := by
  have hmain : document_merge cap (Except.ok (Json.obj l))
      = clientError "Invalid base64 encoded template" := by
    rw [document_merge_obj cap hT hD]
    unfold dataStage decodeStage
    simp only [allStrings_firstNonString hstr, hdec]
  exact ⟨hmain, rfl⟩

/-- Witness for C5: the template "A" (a single data character) fails base64
decoding and yields the 400 invalid-base64 response. -/
theorem c5_witness :
    b64decodeStr "A" = Except.error "Invalid base64-encoded string: number of data characters cannot be 1 more than a multiple of 4"
    ∧ document_merge okCap
        (Except.ok (Json.obj [("template", Json.str "A"), ("data", Json.obj [])]))
      = clientError "Invalid base64 encoded template" :=
  ⟨rfl,
    (c5_invalid_base64 okCap [("template", Json.str "A"), ("data", Json.obj [])]
      (Json.str "A") [] "Invalid base64-encoded string: number of data characters cannot be 1 more than a multiple of 4"
      rfl rfl rfl rfl).1⟩

/-- Claim C6: on a request that passes validation and decoding, an exception
raised by the merge capability — while listing fields, or while merging and
writing — is caught and surfaced as a 500 response with success false and the
underlying failure's message; the handler, a total function into `Response`,
never propagates it. -/
theorem c6_merge_failure_500 (cap : MergeCap) (l : List (String × Json)) (t : Json)
    (kvs : List (String × Json)) (tb : List Nat)
    (hT : lookupKey l "template" = some t)
    (hD : lookupKey l "data" = some (Json.obj kvs))
    (hstr : allStrings kvs = true)
    (hdec : b64decodePy t = Except.ok tb) :
    (∀ e, cap.get_merge_fields tb = Except.error e →
      document_merge cap (Except.ok (Json.obj l)) = serverError e
        ∧ (serverError e).status = 500 ∧ (serverError e).success = false
        ∧ (serverError e).error = some e)
    ∧ (∀ fs e, cap.get_merge_fields tb = Except.ok fs →
        cap.merge_write tb (strPairs kvs) = Except.error e →
        document_merge cap (Except.ok (Json.obj l)) = serverError e
          ∧ (serverError e).status = 500 ∧ (serverError e).success = false
          ∧ (serverError e).error = some e) := by
  have hpre : document_merge cap (Except.ok (Json.obj l)) = mergeStage cap tb (strPairs kvs) := by
    rw [document_merge_obj cap hT hD]
    unfold dataStage decodeStage
    simp only [allStrings_firstNonString hstr, hdec]
  constructor
  · intro e he
    have hm : document_merge cap (Except.ok (Json.obj l)) = serverError e := by
      rw [hpre]
      unfold mergeStage
      simp only [he]
    exact ⟨hm, rfl, rfl, rfl⟩
  · intro fs e hfs he
    have hm : document_merge cap (Except.ok (Json.obj l)) = serverError e := by
      rw [hpre]
      unfold mergeStage
      simp only [hfs, he]
    exact ⟨hm, rfl, rfl, rfl⟩

/-- Witness for C6: the capability that rejects empty bytes turns a valid
request with empty template bytes into a 500 carrying its message. -/
theorem c6_witness :
    specCap.get_merge_fields [] = Except.error "File is not a zip file"
    ∧ document_merge specCap
        (Except.ok (Json.obj [("template", Json.str ""), ("data", Json.obj [("k", Json.str "v")])]))
      = serverError "File is not a zip file" :=
  ⟨rfl,
    ((c6_merge_failure_500 specCap [("template", Json.str ""), ("data", Json.obj [("k", Json.str "v")])]
      (Json.str "") [("k", Json.str "v")] [] rfl rfl rfl rfl).1 "File is not a zip file" rfl).1⟩

/-- Claim C7: for every 200 response of a capability producing genuine bytes
(as any Python bytes object is), base64-decoding the returned `document`
string and re-encoding the bytes yields the original string: the response's
document is `b64encode out` for the merged bytes `out`, decoding it gives
back `out`, and encoding those bytes gives the same string again. -/
theorem c7_document_roundtrip (cap : MergeCap) (hcap : CapBytes cap) (body : Json) (r : Response)
    (h : document_merge cap (Except.ok body) = r) (h200 : r.status = 200) :
    ∃ d out, r.document = some d ∧ b64decodeStr d = Except.ok out ∧ b64encode out = d := by
  obtain ⟨t, kvs, tb, fs, out, h1, h2, h3, h4, h5, h6, hr⟩ := status200_inv h h200
  exact ⟨b64encode out, out, by rw [hr]; rfl,
    b64decode_b64encode out (hcap tb (strPairs kvs) out h6), rfl⟩

/-- Witness for C7 at a concrete 200 response. -/
theorem c7_witness :
    ∃ d out, (document_merge okCap (Except.ok goodBody)).document = some d
      ∧ b64decodeStr d = Except.ok out ∧ b64encode out = d :=
  c7_document_roundtrip okCap okCap_bytes goodBody (document_merge okCap (Except.ok goodBody)) rfl rfl

/-- Claim C8: a request whose body parsing raises (invalid JSON, wrong
content type) is answered by the generic exception handler with a 500
carrying the parse exception's message — not a 400 validation error. -/
theorem c8_parse_error_500 (cap : MergeCap) (e : String) :
    document_merge cap (Except.error e) = serverError e
      ∧ (serverError e).status = 500 ∧ (serverError e).success = false
      ∧ (serverError e).error = some e ∧ (serverError e).status ≠ 400 :=
  ⟨rfl, rfl, rfl, rfl, by simp [serverError]⟩

/-- Claim C9: the `template` value is never shape-checked — for every body
whose `template` is any non-string value and whose `data` is a valid string
mapping, `base64.b64decode` raises TypeError, the inner handler catches it,
and the response is the 400 "Invalid base64 encoded template", not a
shape-error message. -/
theorem c9_nonstring_template (cap : MergeCap) (l : List (String × Json)) (t : Json)
    (kvs : List (String × Json))
    (hT : lookupKey l "template" = some t)
    (hD : lookupKey l "data" = some (Json.obj kvs))
    (hstr : allStrings kvs = true)
    (hns : isStr t = false) :
    document_merge cap (Except.ok (Json.obj l)) = clientError "Invalid base64 encoded template" := by
  have hdec : b64decodePy t = Except.error "argument should be a bytes-like object or ASCII string" := by
    cases t with
    | str s => simp [isStr] at hns
    | null => rfl
    | bool b => rfl
    | num n => rfl
    | arr xs => rfl
    | obj kvs2 => rfl
  rw [document_merge_obj cap hT hD]
  unfold dataStage decodeStage
  simp only [allStrings_firstNonString hstr, hdec]

/-- Witness for C9 with a numeric template value. -/
theorem c9_witness :
    document_merge okCap
        (Except.ok (Json.obj [("template", Json.num 42), ("data", Json.obj [])]))
      = clientError "Invalid base64 encoded template" :=
  c9_nonstring_template okCap [("template", Json.num 42), ("data", Json.obj [])]
    (Json.num 42) [] rfl rfl rfl rfl

/-- Claim C10: decoding is lenient — the template "YWJj!" contains the
character at code 33 (an exclamation mark), which is outside the base64
alphabet and not the pad character, yet decoding succeeds (the character is
discarded, leaving a valid length) and, for every capability, the handler's
response to that template is never a 400. -/
theorem c10_lenient_base64 :
    b64decodeStr "YWJj!" = Except.ok [97, 98, 99]
      ∧ (Char.ofNat 33 ∈ "YWJj!".toList ∧ alphaVal (Char.ofNat 33) = none
          ∧ Char.ofNat 33 ≠ Char.ofNat 61)
      ∧ ∀ cap : MergeCap,
          (document_merge cap
            (Except.ok (Json.obj [("template", Json.str "YWJj!"), ("data", Json.obj [])]))).status
            ≠ 400 := by
  refine ⟨rfl, ⟨by decide, by decide, by decide⟩, ?_⟩
  intro cap
  rw [@document_merge_obj cap [("template", Json.str "YWJj!"), ("data", Json.obj [])]
    (Json.str "YWJj!") (Json.obj []) rfl rfl]
  show (mergeStage cap [97, 98, 99] []).status ≠ 400
  unfold mergeStage
  split
  · simp [serverError]
  · split
    · simp [serverError]
    · simp [successResponse]

end WordMailMerge
